import Mathlib

/-!
Shallow embedding of `src/main.py` of fastapi-incident-sim: a FastAPI
service over a single SQLite table `transactions`, with a request-logging
middleware, validation schemas, and route handlers.

The SQLite table is modelled as a `List Tx` in rowid (insertion) order;
`SELECT ... fetchone()` is `List.find?` over that order, `ORDER BY
created_at DESC LIMIT ?` is a sort by the string order on
`created_at` (descending) followed by a prefix-take, and
`UPDATE ... WHERE order_id = ?` is a map over the list guarded by the
predicate, with `cur.rowcount` the number of rows matching the predicate.
-/

namespace OpsApi

/-- A row of the `transactions` table (SCHEMA_SQL, src/main.py lines 72-84). -/
structure Tx where
  id : Nat
  order_id : String
  user_id : String
  amount_cents : Int
  status : String
  created_at : String
deriving DecidableEq, Repr

abbrev Table := List Tx

/-! ## Request-logging middleware (src/main.py lines 123-163) -/

/-- An HTTP response as the middleware sees it: status code, headers, and
the JSON body fields the handlers of this app produce. `body_detail` is
the `detail` field (or the serialized handler payload), `body_request_id`
the `request_id` field when present. -/
structure Response where
  status_code : Nat
  headers : List (String × String)
  body_detail : String
  body_request_id : Option String
deriving DecidableEq, Repr

/-- Outcome of `await call_next(request)`: either a response, or an
uncaught exception carrying its Python type name and message. -/
inductive HandlerOutcome where
  | ok (resp : Response)
  | exn (error_type : String) (message : String)
deriving DecidableEq, Repr

/-- One structured JSON log record as emitted by the middleware through
`JsonFormatter` (fields relevant to the claims). -/
structure LogRecord where
  level : String
  msg : String
  request_id : String
  method : String
  path : String
  status_code : Nat
  error_type : Option String
deriving DecidableEq, Repr

/-- `request.headers.get("x-request-id") or str(uuid.uuid4())`
(line 125): Python `or` falls through on a missing OR empty header. -/
def pickRequestId (inbound : Option String) (fresh_uuid : String) : String :=
  match inbound with
  | some s => if s = "" then fresh_uuid else s
  | none => fresh_uuid

/-- `request_logging_middleware` (lines 123-163), as a function of the
inbound `x-request-id` header, the freshly generated uuid, the request
method and path, and the outcome of the wrapped handler. On an exception
it logs at error level with the error's type and returns a 500
`JSONResponse` built from scratch (note: no header is attached on this
path). On success it logs at info level and attaches the `X-Request-ID`
header to the handler's response. -/
def request_logging_middleware (inbound : Option String) (fresh_uuid : String)
    (method path : String) (outcome : HandlerOutcome) : Response × LogRecord :=
  let request_id := pickRequestId inbound fresh_uuid
  match outcome with
  | HandlerOutcome.exn etype _ =>
      (⟨500, [], "Internal Server Error", some request_id⟩,
       ⟨"ERROR", "unhandled_exception", request_id, method, path, 500, some etype⟩)
  | HandlerOutcome.ok resp =>
      ({ resp with headers := resp.headers ++ [("X-Request-ID", request_id)] },
       ⟨"INFO", "request_completed", request_id, method, path, resp.status_code, none⟩)

/-- `GET /fail` (lines 176-179): always raises
`RuntimeError("Simulated failure for incident practice")`. -/
def fail : HandlerOutcome :=
  HandlerOutcome.exn "RuntimeError" "Simulated failure for incident practice"

/-- `GET /transactions/bad-query` (lines 336-344): `SELECT * FROM
transactionz` references a nonexistent table, so sqlite3 raises
`OperationalError` before the success return is reached. -/
def tx_bad_query : HandlerOutcome :=
  HandlerOutcome.exn "OperationalError" "no such table: transactionz"

/-! ## Validation schemas (src/main.py lines 223-231) -/

/-- A `POST /transactions` payload before validation. -/
structure TransactionCreate where
  order_id : String
  user_id : String
  amount_cents : Int
  status : String
deriving DecidableEq, Repr

/-- The pydantic constraints of `TransactionCreate` (lines 223-227):
`order_id` 3-50 chars, `user_id` 2-50 chars, `amount_cents` a
`conint(ge=1, le=1_000_000)`, `status` a literal of the three values.
FastAPI returns 422 exactly when this is false. -/
def TransactionCreate.valid (p : TransactionCreate) : Bool :=
  (3 ≤ p.order_id.length && p.order_id.length ≤ 50) &&
  (2 ≤ p.user_id.length && p.user_id.length ≤ 50) &&
  (1 ≤ p.amount_cents && p.amount_cents ≤ 1000000) &&
  (p.status == "approved" || p.status == "declined" || p.status == "pending")

/-- The pydantic constraint of `TransactionUpdateStatus` (lines 230-231). -/
def TransactionUpdateStatus.valid (status : String) : Bool :=
  status == "approved" || status == "declined" || status == "pending"

/-! ## Route handlers over the table (src/main.py lines 194-344) -/

/-- `ORDER BY created_at DESC`: the SQLite text order on `created_at`,
descending. -/
def createdAtDesc (a b : Tx) : Prop :=
  b.created_at ≤ a.created_at

instance : DecidableRel createdAtDesc :=
  fun a b => inferInstanceAs (Decidable (b.created_at ≤ a.created_at))

instance : IsTotal Tx createdAtDesc :=
  ⟨fun a b => le_total b.created_at a.created_at⟩

instance : IsTrans Tx createdAtDesc :=
  ⟨fun _ _ _ h1 h2 => le_trans h2 h1⟩

/-- `LIMIT ?` with a bound parameter: SQLite treats a negative limit as
"no limit", otherwise returns the first `limit` rows. -/
def sqlLimit (limit : Int) (l : List Tx) : List Tx :=
  if limit < 0 then l else l.take limit.toNat

/-- `GET /transactions/by-order/{order_id}` (lines 194-206): `fetchone()`
on `SELECT * FROM transactions WHERE order_id = ?`, i.e. the first stored
row matching; `none` is rendered as the 404 `{"detail": "Not found"}`. -/
def tx_by_order (table : Table) (order_id : String) : Option Tx :=
  table.find? (fun r => r.order_id == order_id)

/-- `GET /transactions/recent` (lines 209-219). -/
def tx_recent (table : Table) (limit : Int) : List Tx :=
  sqlLimit limit (List.insertionSort createdAtDesc table)

/-- `GET /transactions/by-user/{user_id}` (lines 234-249). -/
def tx_by_user (table : Table) (user_id : String) (limit : Int) : List Tx :=
  sqlLimit limit
    (List.insertionSort createdAtDesc (table.filter (fun r => r.user_id == user_id)))

/-- The conjunction of the WHERE clauses `tx_search` conditionally
appends (lines 260-279). `if status:` and `if user_id:` are Python
truthiness checks, so a clause is added only for a supplied, nonempty
string; `if ... is not None:` adds the amount clauses for any supplied
integer. -/
def searchPred (status : Option String) (user_id : Option String)
    (min_amount_cents max_amount_cents : Option Int) (r : Tx) : Bool :=
  (match status with
   | some s => if s = "" then true else r.status == s
   | none => true) &&
  (match user_id with
   | some u => if u = "" then true else r.user_id == u
   | none => true) &&
  (match min_amount_cents with
   | some m => m ≤ r.amount_cents
   | none => true) &&
  (match max_amount_cents with
   | some m => r.amount_cents ≤ m
   | none => true)

/-- `GET /transactions/search` (lines 252-288): filter by the
conditionally built WHERE clause, then `ORDER BY created_at DESC LIMIT ?`. -/
def tx_search (table : Table) (status : Option String)
    (min_amount_cents max_amount_cents : Option Int)
    (user_id : Option String) (limit : Int) : List Tx :=
  sqlLimit limit
    (List.insertionSort createdAtDesc
      (table.filter (searchPred status user_id min_amount_cents max_amount_cents)))

/-- The next `AUTOINCREMENT` identity: one more than the largest id ever
used (ids are never reused). -/
def nextId (table : Table) : Nat :=
  (table.map Tx.id).foldr max 0 + 1

/-- The row `tx_create` inserts (lines 295-302). -/
def mkRow (table : Table) (p : TransactionCreate) (created_at : String) : Tx :=
  ⟨nextId table, p.order_id, p.user_id, p.amount_cents, p.status, created_at⟩

/-- `POST /transactions` (lines 291-311), for a payload that passed
validation: append the new row, commit, then re-select `fetchone()` by
`order_id` — the first stored row with that `order_id`, which need not be
the row just inserted. Returns the new table, the 201 status from the
route decorator, and the fetched row. -/
def tx_create (table : Table) (p : TransactionCreate) (created_at : String) :
    Table × Nat × Option Tx :=
  let table' := table ++ [mkRow table p created_at]
  (table', 201, table'.find? (fun r => r.order_id == p.order_id))

/-- Result of `PUT /transactions/{order_id}/status`: the 404
`JSONResponse`, or the 200 `dict(row)` of the re-selected row. -/
inductive UpdateResp where
  | notFound
  | ok (row : Option Tx)
deriving DecidableEq, Repr

/-- The effect of `UPDATE transactions SET status = ? WHERE order_id = ?`
on one row. -/
def setStatus (order_id status : String) (r : Tx) : Tx :=
  if r.order_id = order_id then { r with status := status } else r

/-- `PUT /transactions/{order_id}/status` (lines 314-333): run the UPDATE
(every row with this `order_id` gets the new status, `cur.rowcount`
counting the matches), 404 on zero matches, else `fetchone()` the first
row now matching `order_id`. -/
def tx_update_status (table : Table) (order_id status : String) :
    Table × UpdateResp :=
  let table' := table.map (setStatus order_id status)
  let rowcount := (table.filter (fun r => r.order_id == order_id)).length
  if rowcount = 0 then (table', UpdateResp.notFound)
  else (table', UpdateResp.ok (table'.find? (fun r => r.order_id == order_id)))

/-! ## The exposed operations, as one type (for the frame claim) -/

/-- Every exposed operation that touches the table. Read-only handlers
run SELECT statements only, so they leave the table as is; `create` and
`updateStatus` are the only writers. -/
inductive Op where
  | byOrder (order_id : String)
  | recent (limit : Int)
  | byUser (user_id : String) (limit : Int)
  | search (status : Option String) (minA maxA : Option Int)
      (user_id : Option String) (limit : Int)
  | create (p : TransactionCreate) (created_at : String)
  | updateStatus (order_id status : String)
deriving DecidableEq, Repr

/-- The table after running one exposed operation. -/
def applyOp (table : Table) : Op → Table
  | Op.create p created_at => (tx_create table p created_at).1
  | Op.updateStatus oid st => (tx_update_status table oid st).1
  | _ => table

/-- The per-row effect of an operation on rows already in the table: only
`updateStatus` touches an existing row, and only through `setStatus`. -/
def opStatusMap : Op → Tx → Tx
  | Op.updateStatus oid st => setStatus oid st
  | _ => id

/-- Agreement on every column except `status`. -/
def sameExceptStatus (a b : Tx) : Prop :=
  a.id = b.id ∧ a.order_id = b.order_id ∧ a.user_id = b.user_id ∧
  a.amount_cents = b.amount_cents ∧ a.created_at = b.created_at

/-! ## Helper lemmas -/

theorem setStatus_order_id (oid st : String) (r : Tx) :
    (setStatus oid st r).order_id = r.order_id := by
  unfold setStatus; split <;> rfl

theorem setStatus_sameExceptStatus (oid st : String) (r : Tx) :
    sameExceptStatus r (setStatus oid st r) := by
  unfold setStatus sameExceptStatus; split <;> simp

theorem map_setStatus_of_no_match {table : Table} {oid st : String}
    (h : ∀ r ∈ table, r.order_id ≠ oid) :
    table.map (setStatus oid st) = table := by
  induction table with
  | nil => rfl
  | cons a l ih =>
    simp only [List.map_cons]
    rw [ih (fun r hr => h r (List.mem_cons_of_mem a hr))]
    have ha := h a (List.mem_cons_self a l)
    simp [setStatus, ha]

theorem status_of_mem_map_setStatus {table : Table} {oid st : String} {r : Tx}
    (hr : r ∈ table.map (setStatus oid st)) (h : r.order_id = oid) :
    r.status = st := by
  obtain ⟨r1, _, rfl⟩ := List.mem_map.mp hr
  unfold setStatus at h ⊢
  by_cases h1 : r1.order_id = oid
  · simp [h1]
  · simp only [if_neg h1] at h ⊢
    exact absurd h h1

theorem sqlLimit_sublist (limit : Int) (l : List Tx) : List.Sublist (sqlLimit limit l) l := by
  unfold sqlLimit; split
  · exact List.Sublist.refl l
  · exact List.take_sublist _ l

theorem searchPred_amount {status user_id : Option String} {m M : Int} {r : Tx}
    (h : searchPred status user_id (some m) (some M) r = true) :
    m ≤ r.amount_cents ∧ r.amount_cents ≤ M := by
  simp only [searchPred, Bool.and_eq_true, decide_eq_true_eq] at h
  exact ⟨h.1.2, h.2⟩

end OpsApi

namespace OpsApi

/-! ## Claim theorems -/

/-- C1, counterexample: the 500 response the middleware builds for the
raising `/fail` handler (fresh uuid "rid-1", no inbound header) carries
no request-id header at all — so not every response carries one. -/
theorem c1_counterexample :
    ((request_logging_middleware none "rid-1" "GET" "/fail" fail).1.headers.filter
        (fun h => h.1 == "X-Request-ID")) = [] ∧
    (request_logging_middleware none "rid-1" "GET" "/fail" fail).1.status_code = 500 := by
  exact ⟨rfl, rfl⟩

/-- C1, amended: a response produced from a handler's own response
carries the `X-Request-ID` header with the request id; a response
produced when the wrapped handler raises an unhandled exception carries
the request id only in its JSON body and carries no request-id header. -/
theorem c1_request_id_header (inbound : Option String)
    (fresh_uuid method path : String) (outcome : HandlerOutcome) :
    (∀ resp, outcome = HandlerOutcome.ok resp →
      ("X-Request-ID", pickRequestId inbound fresh_uuid) ∈
        (request_logging_middleware inbound fresh_uuid method path outcome).1.headers) ∧
    (∀ etype msg, outcome = HandlerOutcome.exn etype msg →
      (request_logging_middleware inbound fresh_uuid method path outcome).1.body_request_id
          = some (pickRequestId inbound fresh_uuid) ∧
      ((request_logging_middleware inbound fresh_uuid method path outcome).1.headers.filter
          (fun h => h.1 == "X-Request-ID")) = []) := by
  constructor
  · rintro resp rfl
    simp [request_logging_middleware]
  · rintro etype msg rfl
    simp [request_logging_middleware]

/-- C1, witness at concrete inputs: success response carries the header,
the `/fail` 500 carries the id in the body. -/
theorem c1_request_id_header_witness :
    ("X-Request-ID", "w1") ∈
      (request_logging_middleware none "w1" "GET" "/health"
        (HandlerOutcome.ok ⟨200, [], "healthy", none⟩)).1.headers ∧
    (request_logging_middleware none "w1" "GET" "/fail" fail).1.body_request_id = some "w1" :=
  ⟨(c1_request_id_header none "w1" "GET" "/health"
      (HandlerOutcome.ok ⟨200, [], "healthy", none⟩)).1 ⟨200, [], "healthy", none⟩ rfl,
   ((c1_request_id_header none "w1" "GET" "/fail" fail).2
      "RuntimeError" "Simulated failure for incident practice" rfl).1⟩

/-- C4: any unhandled exception is absorbed by the middleware (the
function returns a response, never re-raises), logged once at error level
with the error's type, and mapped to a 500 whose body is exactly the
generic detail plus the request id — the right-hand side does not mention
the exception's message, so no internal error text reaches the caller.
`/fail` and `/transactions/bad-query` are instances. -/
theorem c4_unhandled_exception_to_500 (inbound : Option String)
    (fresh_uuid method path etype msg : String) :
    request_logging_middleware inbound fresh_uuid method path
        (HandlerOutcome.exn etype msg) =
      (⟨500, [], "Internal Server Error", some (pickRequestId inbound fresh_uuid)⟩,
       ⟨"ERROR", "unhandled_exception", pickRequestId inbound fresh_uuid, method, path,
        500, some etype⟩) ∧
    (request_logging_middleware inbound fresh_uuid method path fail).1 =
      ⟨500, [], "Internal Server Error", some (pickRequestId inbound fresh_uuid)⟩ ∧
    (request_logging_middleware inbound fresh_uuid method path tx_bad_query).1 =
      ⟨500, [], "Internal Server Error", some (pickRequestId inbound fresh_uuid)⟩ :=
  ⟨rfl, rfl, rfl⟩

/-- C3: updating the status of an `order_id` matching no stored row
returns the 404 response and leaves the table exactly as it was. -/
theorem c3_update_nonexistent_404 (table : Table) (oid st : String)
    (h : ∀ r ∈ table, r.order_id ≠ oid) :
    tx_update_status table oid st = (table, UpdateResp.notFound) := by
  unfold tx_update_status
  have hfilter : table.filter (fun r => r.order_id == oid) = [] := by
    rw [List.filter_eq_nil_iff]
    intro r hr
    simpa using h r hr
  rw [hfilter, map_setStatus_of_no_match h]
  rfl

/-- C3, witness: a one-row table, updated at an absent `order_id`. -/
theorem c3_update_nonexistent_404_witness :
    tx_update_status [⟨1, "ORD-1", "U-1", 5, "approved", "2025-12-14T10:10:00Z"⟩]
        "ORD-2" "pending" =
      ([⟨1, "ORD-1", "U-1", 5, "approved", "2025-12-14T10:10:00Z"⟩],
       UpdateResp.notFound) :=
  c3_update_nonexistent_404 _ "ORD-2" "pending" (by decide)

/-- The table component of `tx_update_status` is the UPDATE's effect,
whether or not a row matched. -/
theorem tx_update_status_fst (table : Table) (oid st : String) :
    (tx_update_status table oid st).1 = table.map (setStatus oid st) := by
  simp only [tx_update_status]
  split <;> rfl

/-- When at least one row matches, `tx_update_status` takes the 200
branch and re-selects the first matching row of the updated table. -/
theorem tx_update_status_of_match {table : Table} {oid st : String}
    (hne : (table.filter (fun r => r.order_id == oid)).length ≠ 0) :
    tx_update_status table oid st =
      (table.map (setStatus oid st),
       UpdateResp.ok ((table.map (setStatus oid st)).find? (fun r => r.order_id == oid))) := by
  unfold tx_update_status
  simp [hne]

/-- C2, counterexample: with a row of `order_id` "ORD-A" already stored,
creating a second, valid transaction with the same `order_id` returns
201 but hands back the pre-existing row (user "U-OLD"), not the row just
appended (user "U-NEW"). -/
theorem c2_counterexample :
    TransactionCreate.valid ⟨"ORD-A", "U-NEW", 200, "pending"⟩ = true ∧
    (tx_create [⟨1, "ORD-A", "U-OLD", 100, "approved", "2025-01-01T00:00:00Z"⟩]
        ⟨"ORD-A", "U-NEW", 200, "pending"⟩ "2025-01-02T00:00:00Z").2.1 = 201 ∧
    (tx_create [⟨1, "ORD-A", "U-OLD", 100, "approved", "2025-01-01T00:00:00Z"⟩]
        ⟨"ORD-A", "U-NEW", 200, "pending"⟩ "2025-01-02T00:00:00Z").2.2 =
      some ⟨1, "ORD-A", "U-OLD", 100, "approved", "2025-01-01T00:00:00Z"⟩ ∧
    ((tx_create [⟨1, "ORD-A", "U-OLD", 100, "approved", "2025-01-01T00:00:00Z"⟩]
        ⟨"ORD-A", "U-NEW", 200, "pending"⟩ "2025-01-02T00:00:00Z").2.2).map Tx.user_id ≠
      some "U-NEW" := by
  refine ⟨by decide, rfl, by decide, by decide⟩

/-- C2, amended: `POST /transactions` always returns 201 and the first
stored row whose `order_id` equals the payload's; when no pre-existing
row shares the payload's `order_id`, that is exactly the row just
appended, so the full created row is returned. -/
theorem c2_create_returns_first_match (table : Table) (p : TransactionCreate)
    (created_at : String) :
    (tx_create table p created_at).2.1 = 201 ∧
    ((∀ r ∈ table, r.order_id ≠ p.order_id) →
      tx_create table p created_at =
        (table ++ [mkRow table p created_at], 201, some (mkRow table p created_at))) := by
  refine ⟨rfl, fun h => ?_⟩
  unfold tx_create
  have h1 : table.find? (fun r => r.order_id == p.order_id) = none := by
    rw [List.find?_eq_none]
    intro r hr
    simpa using h r hr
  simp [List.find?_append, h1, mkRow]

/-- C2, witness: creating into a table without the payload's `order_id`
returns exactly the appended row. -/
theorem c2_create_returns_first_match_witness :
    tx_create [⟨1, "ORD-1", "U-1", 5, "approved", "2025-12-14T10:10:00Z"⟩]
        ⟨"ORD-2", "U-2", 300, "pending"⟩ "2025-12-15T00:00:00Z" =
      ([⟨1, "ORD-1", "U-1", 5, "approved", "2025-12-14T10:10:00Z"⟩,
        ⟨2, "ORD-2", "U-2", 300, "pending", "2025-12-15T00:00:00Z"⟩],
       201,
       some ⟨2, "ORD-2", "U-2", 300, "pending", "2025-12-15T00:00:00Z"⟩) :=
  (c2_create_returns_first_match
    [⟨1, "ORD-1", "U-1", 5, "approved", "2025-12-14T10:10:00Z"⟩]
    ⟨"ORD-2", "U-2", 300, "pending"⟩ "2025-12-15T00:00:00Z").2 (by decide)

/-- C8: updating the status of an `order_id` with a stored row takes the
200 branch, the returned row carries the new status, and a subsequent
by-order fetch on the resulting table returns that same row. -/
theorem c8_update_existing_reflected (table : Table) (oid st : String) (r0 : Tx)
    (hr0 : r0 ∈ table) (hoid : r0.order_id = oid) :
    ∃ row, (tx_update_status table oid st).2 = UpdateResp.ok (some row) ∧
      row.status = st ∧
      tx_by_order (tx_update_status table oid st).1 oid = some row := by
  have hne : (table.filter (fun r => r.order_id == oid)).length ≠ 0 := by
    intro h0
    rw [List.length_eq_zero, List.filter_eq_nil_iff] at h0
    exact h0 r0 hr0 (by simpa using hoid)
  have hsome : ((table.map (setStatus oid st)).find? (fun r => r.order_id == oid)).isSome := by
    rw [List.find?_isSome]
    exact ⟨setStatus oid st r0, List.mem_map_of_mem _ hr0,
      by simp [setStatus_order_id, hoid]⟩
  obtain ⟨row, hrow⟩ := Option.isSome_iff_exists.mp hsome
  refine ⟨row, ?_, ?_, ?_⟩
  · rw [tx_update_status_of_match hne, hrow]
  · exact status_of_mem_map_setStatus (List.mem_of_find?_eq_some hrow)
      (by simpa using List.find?_some hrow)
  · rw [tx_update_status_fst]
    unfold tx_by_order
    exact hrow

/-- C8, witness: update the one stored row, then fetch it by order id. -/
theorem c8_update_existing_reflected_witness :
    ∃ row,
      (tx_update_status [⟨1, "ORD-1", "U-1", 5, "approved", "2025-12-14T10:10:00Z"⟩]
          "ORD-1" "declined").2 = UpdateResp.ok (some row) ∧
      row.status = "declined" ∧
      tx_by_order
          (tx_update_status [⟨1, "ORD-1", "U-1", 5, "approved", "2025-12-14T10:10:00Z"⟩]
            "ORD-1" "declined").1 "ORD-1" = some row :=
  c8_update_existing_reflected
    [⟨1, "ORD-1", "U-1", 5, "approved", "2025-12-14T10:10:00Z"⟩] "ORD-1" "declined"
    ⟨1, "ORD-1", "U-1", 5, "approved", "2025-12-14T10:10:00Z"⟩ (by decide) rfl

/-- C9: with a row of the payload's `order_id` already stored, creation
still returns 201 (the schema has no uniqueness constraint on
`order_id`), the table then holds at least two rows with that
`order_id`, and a status update at that `order_id` sets the new status
on every row bearing it. -/
theorem c9_duplicate_order_id (table : Table) (p : TransactionCreate)
    (created_at st : String) (r0 : Tx) (hr0 : r0 ∈ table)
    (hoid : r0.order_id = p.order_id) :
    (tx_create table p created_at).2.1 = 201 ∧
    2 ≤ ((tx_create table p created_at).1.filter
        (fun r => r.order_id == p.order_id)).length ∧
    ∀ r ∈ (tx_update_status (tx_create table p created_at).1 p.order_id st).1,
      r.order_id = p.order_id → r.status = st := by
  refine ⟨rfl, ?_, ?_⟩
  · show 2 ≤ ((table ++ [mkRow table p created_at]).filter
        (fun r => r.order_id == p.order_id)).length
    rw [List.filter_append, List.length_append]
    have h1 : r0 ∈ table.filter (fun r => r.order_id == p.order_id) :=
      List.mem_filter.mpr ⟨hr0, by simpa using hoid⟩
    have h2 : 0 < (table.filter (fun r => r.order_id == p.order_id)).length :=
      List.length_pos_of_mem h1
    have h3 : ([mkRow table p created_at].filter
        (fun r => r.order_id == p.order_id)).length = 1 := by
      simp [mkRow]
    omega
  · intro r hr hroid
    rw [tx_update_status_fst] at hr
    exact status_of_mem_map_setStatus hr hroid

/-- C5: a search supplying both amount bounds returns only rows with
`amount_cents` in the inclusive range, in `created_at`-descending order. -/
theorem c5_search_range_and_order (table : Table) (status user_id : Option String)
    (m M : Int) (limit : Int) :
    (∀ r ∈ tx_search table status (some m) (some M) user_id limit,
        m ≤ r.amount_cents ∧ r.amount_cents ≤ M) ∧
    List.Pairwise (fun a b => b.created_at ≤ a.created_at)
      (tx_search table status (some m) (some M) user_id limit) := by
  constructor
  · intro r hr
    have hr' : r ∈ List.insertionSort createdAtDesc
        (table.filter (searchPred status user_id (some m) (some M))) :=
      (sqlLimit_sublist limit _).subset hr
    rw [List.mem_insertionSort] at hr'
    exact searchPred_amount (List.of_mem_filter hr')
  · have hs : List.Sorted createdAtDesc (List.insertionSort createdAtDesc
        (table.filter (searchPred status user_id (some m) (some M)))) :=
      List.sorted_insertionSort createdAtDesc _
    exact List.Pairwise.sublist (sqlLimit_sublist limit _) hs

/-- C5, witness: a one-row table searched with bounds [0, 10]. -/
theorem c5_search_range_and_order_witness :
    (0 : Int) ≤ (Tx.mk 1 "ORD-1" "U-1" 5 "approved" "2025-12-14T10:10:00Z").amount_cents ∧
    (Tx.mk 1 "ORD-1" "U-1" 5 "approved" "2025-12-14T10:10:00Z").amount_cents ≤ 10 :=
  (c5_search_range_and_order [⟨1, "ORD-1", "U-1", 5, "approved", "2025-12-14T10:10:00Z"⟩]
      none none 0 10 50).1
    ⟨1, "ORD-1", "U-1", 5, "approved", "2025-12-14T10:10:00Z"⟩ (by decide)

/-- C6: for payloads whose `order_id` and `user_id` have valid lengths,
validation fails (hence FastAPI answers 422) exactly when `amount_cents`
lies outside [1, 1000000] or `status` is not one of the three literals;
and the boundary amounts 1 and 1000000 are accepted. -/
theorem c6_validation_boundaries (p : TransactionCreate)
    (hord1 : 3 ≤ p.order_id.length) (hord2 : p.order_id.length ≤ 50)
    (husr1 : 2 ≤ p.user_id.length) (husr2 : p.user_id.length ≤ 50) :
    (p.valid = false ↔
      (p.amount_cents < 1 ∨ 1000000 < p.amount_cents ∨
        (p.status ≠ "approved" ∧ p.status ≠ "declined" ∧ p.status ≠ "pending"))) ∧
    ((p.status = "approved" ∨ p.status = "declined" ∨ p.status = "pending") →
      (p.amount_cents = 1 ∨ p.amount_cents = 1000000) → p.valid = true) := by
  have hval : p.valid = true ↔
      ((1 ≤ p.amount_cents ∧ p.amount_cents ≤ 1000000) ∧
        (p.status = "approved" ∨ p.status = "declined" ∨ p.status = "pending")) := by
    unfold TransactionCreate.valid
    simp only [Bool.and_eq_true, Bool.or_eq_true, decide_eq_true_eq, beq_iff_eq]
    tauto
  constructor
  · rw [Bool.eq_false_iff, Ne, hval]
    constructor
    · intro h
      by_cases hs : p.status = "approved" ∨ p.status = "declined" ∨ p.status = "pending"
      · have hc : ¬(1 ≤ p.amount_cents ∧ p.amount_cents ≤ 1000000) :=
          fun hc => h ⟨hc, hs⟩
        omega
      · push_neg at hs
        exact Or.inr (Or.inr hs)
    · rintro (h | h | ⟨h1, h2, h3⟩) ⟨⟨ha1, ha2⟩, hs⟩
      · omega
      · omega
      · rcases hs with hs | hs | hs
        · exact h1 hs
        · exact h2 hs
        · exact h3 hs
  · rintro hs (h1 | h1) <;> exact hval.mpr ⟨by omega, hs⟩

/-- C6, witness: the boundary amount 1 with a valid status is accepted. -/
theorem c6_validation_boundaries_witness :
    TransactionCreate.valid ⟨"ORD", "UU", 1, "pending"⟩ = true :=
  (c6_validation_boundaries ⟨"ORD", "UU", 1, "pending"⟩
      (by decide) (by decide) (by decide) (by decide)).2
    (Or.inr (Or.inr rfl)) (Or.inl rfl)

/-- C7: for every exposed operation, the stored rows survive in place —
the first `table.length` rows of the result are exactly the old rows
passed through the operation's per-row effect, that effect preserves
every column except `status` (and is the identity for every operation
other than `updateStatus`), and no operation shrinks the table (nothing
is ever deleted). -/
theorem c7_only_status_mutates (table : Table) (op : Op) :
    (applyOp table op).take table.length = table.map (opStatusMap op) ∧
    (∀ r, sameExceptStatus r (opStatusMap op r)) ∧
    ((∀ oid st, op ≠ Op.updateStatus oid st) →
      (applyOp table op).take table.length = table) ∧
    table.length ≤ (applyOp table op).length := by
  cases op with
  | updateStatus oid st =>
    refine ⟨?_, fun r => setStatus_sameExceptStatus oid st r, ?_, ?_⟩
    · show (tx_update_status table oid st).1.take table.length = _
      rw [tx_update_status_fst]
      exact List.take_of_length_le (by simp)
    · intro h
      exact absurd rfl (h oid st)
    · show table.length ≤ (tx_update_status table oid st).1.length
      rw [tx_update_status_fst]
      simp
  | create p created_at =>
    refine ⟨?_, fun r => ⟨rfl, rfl, rfl, rfl, rfl⟩, ?_, ?_⟩
    · show (table ++ [mkRow table p created_at]).take table.length = table.map id
      rw [List.map_id, List.take_left]
    · intro _
      show (table ++ [mkRow table p created_at]).take table.length = table
      exact List.take_left table _
    · show table.length ≤ (table ++ [mkRow table p created_at]).length
      simp
  | byOrder oid =>
    exact ⟨by simp [applyOp, opStatusMap], fun r => ⟨rfl, rfl, rfl, rfl, rfl⟩,
      fun _ => by simp [applyOp], le_refl _⟩
  | recent limit =>
    exact ⟨by simp [applyOp, opStatusMap], fun r => ⟨rfl, rfl, rfl, rfl, rfl⟩,
      fun _ => by simp [applyOp], le_refl _⟩
  | byUser uid limit =>
    exact ⟨by simp [applyOp, opStatusMap], fun r => ⟨rfl, rfl, rfl, rfl, rfl⟩,
      fun _ => by simp [applyOp], le_refl _⟩
  | search status minA maxA uid limit =>
    exact ⟨by simp [applyOp, opStatusMap], fun r => ⟨rfl, rfl, rfl, rfl, rfl⟩,
      fun _ => by simp [applyOp], le_refl _⟩

/-- C7, witness: a read-only operation leaves a one-row table as is. -/
theorem c7_only_status_mutates_witness :
    (applyOp [⟨1, "ORD-1", "U-1", 5, "approved", "2025-12-14T10:10:00Z"⟩]
        (Op.recent 5)).take
      [(⟨1, "ORD-1", "U-1", 5, "approved", "2025-12-14T10:10:00Z"⟩ : Tx)].length =
      [⟨1, "ORD-1", "U-1", 5, "approved", "2025-12-14T10:10:00Z"⟩] :=
  (c7_only_status_mutates [⟨1, "ORD-1", "U-1", 5, "approved", "2025-12-14T10:10:00Z"⟩]
      (Op.recent 5)).2.2.1 (fun _ _ h => by cases h)

/-- C10: supplying `status` or `user_id` as the empty string makes the
Python truthiness check skip that WHERE clause, so the search behaves
exactly as if the parameter had been omitted. -/
theorem c10_empty_string_filter_absent (table : Table)
    (minA maxA : Option Int) (status user_id : Option String) (limit : Int) :
    tx_search table (some "") minA maxA user_id limit =
      tx_search table none minA maxA user_id limit ∧
    tx_search table status minA maxA (some "") limit =
      tx_search table status minA maxA none limit := by
  have h1 : searchPred (some "") user_id minA maxA = searchPred none user_id minA maxA := by
    funext r
    simp [searchPred]
  have h2 : searchPred status (some "") minA maxA = searchPred status none minA maxA := by
    funext r
    simp [searchPred]
  constructor
  · unfold tx_search
    rw [h1]
  · unfold tx_search
    rw [h2]

/-- C9, witness: a duplicate create then a status update over the
duplicated `order_id`, projected to the two-rows count. -/
theorem c9_duplicate_order_id_witness :
    2 ≤ ((tx_create [⟨1, "ORD-A", "U-1", 100, "approved", "2025-01-01T00:00:00Z"⟩]
        ⟨"ORD-A", "U-2", 300, "pending"⟩ "2025-01-02T00:00:00Z").1.filter
          (fun r => r.order_id == "ORD-A")).length :=
  (c9_duplicate_order_id [⟨1, "ORD-A", "U-1", 100, "approved", "2025-01-01T00:00:00Z"⟩]
    ⟨"ORD-A", "U-2", 300, "pending"⟩ "2025-01-02T00:00:00Z" "declined"
    ⟨1, "ORD-A", "U-1", 100, "approved", "2025-01-01T00:00:00Z"⟩ (by decide) rfl).2.1

end OpsApi
